import Mathlib

/-!
Shallow embedding of the kooplearn trainer modules and feature maps:
  * `src/kooplearn/encoder_decoder/nn/modules/DPNetsModule.py`
  * `src/kooplearn/nn/modules/KoopmanDNNModule.py`
  * `src/kooplearn/models/feature_maps/base.py`

Modelling conventions:
  * Python runtime values (tensors, optimizers, schedulers, loss values,
    hyperparameter values) are all drawn from one abstract type `V`,
    mirroring Python's single dynamic value universe.
  * A Python `dict` is an association list; `d[k] = v` conses the pair to
    the front, so a later insert shadows an earlier one under lookup,
    exactly as a later `d[k] = v` overwrites in Python.
  * Object identity (`is`) is modelled by allocating consecutive `Nat`
    ids from a counter threaded through the constructor.
  * Dicts that the code mutates in place (`scheduler_config`) live in a
    `Heap` and are referred to by address, so aliasing and `dict.copy()`
    are modelled faithfully.
  * A raised Python exception is an `Except.error` carrying a label for
    the exception class.
-/

/-- A Python dict with string keys, as an association list where the most
recent insert is at the front. -/
abbrev Dict (V : Type) := List (String × V)

/-- Python dict lookup `d[k]` / `d.get(k)`: the most recently inserted
binding for `k` wins. -/
def dget {V : Type} : Dict V → String → Option V
  | [], _ => none
  | (k', v) :: d, k => if k' = k then some v else dget d k

/-- Python dict item assignment `d[k] = v` (as far as lookup is
concerned: the new binding shadows any earlier one). -/
def pyInsert {V : Type} (d : Dict V) (k : String) (v : V) : Dict V :=
  (k, v) :: d

/-- The hyperparameter-flattening loop
`for k, v in m.items(): self.hparams[f'<p>...{k}'] = v`:
inserts every entry of `m` into `d` under the key prefixed with `p`. -/
def insertAll {V : Type} (p : String) (m : Dict V) (d : Dict V) : Dict V :=
  m.foldl (fun acc kv => pyInsert acc (p ++ kv.1) kv.2) d

/-- A heap of Python dict objects, addressed by index; models aliasing of
mutable dicts such as `scheduler_config`. -/
structure Heap (V : Type) where
  dicts : List (Dict V)

/-- Dereference a dict address. -/
def Heap.get {V : Type} (h : Heap V) (r : Nat) : Dict V :=
  h.dicts.getD r []

/-- Allocate a fresh dict object (used for `dict.copy()`), returning the
new heap and the fresh address. -/
def Heap.alloc {V : Type} (h : Heap V) (d : Dict V) : Heap V × Nat :=
  (⟨h.dicts ++ [d]⟩, h.dicts.length)

/-- In-place mutation of the dict object at address `r`. -/
def Heap.set {V : Type} (h : Heap V) (r : Nat) (d : Dict V) : Heap V :=
  ⟨h.dicts.set r d⟩

/-- State of a constructed `DPNetsModule`: the flattened hyperparameters,
the ids of the two encoder objects, and the stored constructor arguments.
`scheduler_config` is stored by reference (Python aliases the caller's
dict). -/
structure DPNetsModule (V : Type) where
  hparams : Dict V
  modelId : Nat
  model2Id : Nat
  optimizer_fn : V → Dict V → V
  scheduler_fn : Option (V → Dict V → V)
  optimizer_hyperparameters : Dict V
  scheduler_hyperparameters : Dict V
  scheduler_configRef : Nat
  loss_fn : V → V → V

/-- `DPNetsModule.__init__`.  Arguments defaulting to `None` in the
Python signature are `Option`s; calling `.items()` on `None` raises
`AttributeError`, modelled as an error result.  `model_class(**kwargs)`
allocates a fresh object id from the counter `nextObj`; when
`model_class_2` is `None`, `model_2` is bound to the very same id as
`model`.  `save_hyperparameters()` belongs to the external framework and
has no modelled effect. -/
def dpnetsInit {V C : Type}
    (model_hyperparameters : Dict V)
    (optimizer_fn : V → Dict V → V)
    (optimizer_hyperparameters : Dict V)
    (loss_fn : V → V → V)
    (scheduler_fn : Option (V → Dict V → V))
    (scheduler_hyperparameters : Option (Dict V))
    (scheduler_configRef : Option Nat)
    (model_class_2 : Option C)
    (model_hyperparameters_2 : Option (Dict V))
    (h : Heap V) (nextObj : Nat) :
    Except String (DPNetsModule V × Nat) :=
  let hp := insertAll "" model_hyperparameters []
  match model_hyperparameters_2 with
  | none => .error "AttributeError: NoneType object has no attribute items"
  | some m2h =>
    let hp := insertAll "model_2_" m2h hp
    let hp := insertAll "optim_" optimizer_hyperparameters hp
    match scheduler_hyperparameters with
    | none => .error "AttributeError: NoneType object has no attribute items"
    | some sh =>
      let hp := insertAll "sched_" sh hp
      match scheduler_configRef with
      | none => .error "AttributeError: NoneType object has no attribute items"
      | some scr =>
        let hp := insertAll "sched_" (h.get scr) hp
        let modelId := nextObj
        match model_class_2 with
        | some _ =>
            .ok ({ hparams := hp, modelId := modelId, model2Id := nextObj + 1,
                   optimizer_fn := optimizer_fn, scheduler_fn := scheduler_fn,
                   optimizer_hyperparameters := optimizer_hyperparameters,
                   scheduler_hyperparameters := sh,
                   scheduler_configRef := scr, loss_fn := loss_fn },
                 nextObj + 2)
        | none =>
            .ok ({ hparams := hp, modelId := modelId, model2Id := modelId,
                   optimizer_fn := optimizer_fn, scheduler_fn := scheduler_fn,
                   optimizer_hyperparameters := optimizer_hyperparameters,
                   scheduler_hyperparameters := sh,
                   scheduler_configRef := scr, loss_fn := loss_fn },
                 nextObj + 1)

/-- Result shape of `configure_optimizers`: either the bare optimizer or
the pair of singleton lists `([optimizer], [lr_scheduler_config])`. -/
inductive OptimResult (V : Type) where
  | bare (o : V)
  | withSched (os : List V) (cfgs : List (Dict V))
  deriving DecidableEq

/-- `DPNetsModule.configure_optimizers`.  `ps` stands for the value of
`self.parameters()` (provided by the external framework).  The method
assigns no attribute of `self`, so the module is returned unchanged; the
heap records the `scheduler_config.copy()` allocation and the mutation
`lr_scheduler_config['scheduler'] = scheduler` on the copy. -/
def DPNetsModule.configure_optimizers {V : Type}
    (m : DPNetsModule V) (ps : V) (h : Heap V) :
    OptimResult V × DPNetsModule V × Heap V :=
  let optimizer := m.optimizer_fn ps m.optimizer_hyperparameters
  match m.scheduler_fn with
  | some sfn =>
    let scheduler := sfn optimizer m.scheduler_hyperparameters
    let (h1, r) := h.alloc (h.get m.scheduler_configRef)
    let h2 := h1.set r (pyInsert (h1.get r) "scheduler" scheduler)
    (.withSched [optimizer] [h2.get r], m, h2)
  | none => (.bare optimizer, m, h)

/-- Environment binding each network object id to its forward function
(the networks are deterministic functions of their input dict). -/
structure NetEnv (V : Type) where
  call : Nat → Dict V → Dict V

/-- `DPNetsModule.base_step`: builds `{'x_value': batch['x_value']}` and
`{'x_value': batch['y_value']}`, forwards them through `model` and
`model_2`, extracts each output's `'x_encoded'` entry and returns
`{'loss': loss_fn(x_encoded, y_encoded)}`.  A missing dict key raises
`KeyError`. -/
def DPNetsModule.base_step {V : Type}
    (m : DPNetsModule V) (env : NetEnv V) (batch : Dict V) (batchIdx : Nat) :
    Except String (Dict V) :=
  match dget batch "x_value" with
  | none => .error "KeyError: x_value"
  | some xv =>
    match dget batch "y_value" with
    | none => .error "KeyError: y_value"
    | some yv =>
      let data_x : Dict V := [("x_value", xv)]
      let data_y : Dict V := [("x_value", yv)]
      let model_output_x := env.call m.modelId data_x
      match dget model_output_x "x_encoded" with
      | none => .error "KeyError: x_encoded"
      | some x_encoded =>
        let model_output_y := env.call m.model2Id data_y
        match dget model_output_y "x_encoded" with
        | none => .error "KeyError: x_encoded"
        | some y_encoded =>
          .ok [("loss", m.loss_fn x_encoded y_encoded)]

/-- `DPNetsModule.training_step` delegates to `base_step`. -/
def DPNetsModule.training_step {V : Type}
    (m : DPNetsModule V) (env : NetEnv V) (train_batch : Dict V)
    (batchIdx : Nat) : Except String (Dict V) :=
  m.base_step env train_batch batchIdx

/-- `DPNetsModule.validation_step` delegates to `base_step`. -/
def DPNetsModule.validation_step {V : Type}
    (m : DPNetsModule V) (env : NetEnv V) (valid_batch : Dict V)
    (batchIdx : Nat) : Except String (Dict V) :=
  m.base_step env valid_batch batchIdx

/-- `DPNetsModule.forward`: forwards the batch through `model`. -/
def DPNetsModule.forward {V : Type}
    (m : DPNetsModule V) (env : NetEnv V) (batch : Dict V) : Dict V :=
  env.call m.modelId batch

/-- State of a constructed `KoopmanDNNModule`. -/
structure KoopmanDNNModule (V : Type) where
  hparams : Dict V
  modelId : Nat
  koopman_estimator : Option V
  decoder : Option V
  optimizer_fn : V → Dict V → V
  scheduler_fn : Option (V → Dict V → V)
  optimizer_hyperparameters : Dict V
  scheduler_hyperparameters : Dict V
  scheduler_configRef : Nat
  loss_fn : V → V → V

/-- `KoopmanDNNModule.__init__`.  The first flattening loop reads
`self.hparamsxz`, an attribute that does not exist on the module, so as
soon as `model_hyperparameters` has one entry the loop body raises
`AttributeError`; with an empty `model_hyperparameters` the loop body
never runs and construction proceeds.  The remaining loops use
`self.hparams` with the prefixes `optim_`, `koop_`, `dec_`, `sched_`,
`sched_`; each defaulted-to-`None` mapping raises `AttributeError` when
left at `None`. -/
def koopmanDNNInit {V : Type}
    (model_hyperparameters : Dict V)
    (optimizer_fn : V → Dict V → V)
    (optimizer_hyperparameters : Dict V)
    (loss_fn : V → V → V)
    (koopman_estimator : Option V)
    (koopman_estimator_hyperparameters : Option (Dict V))
    (decoder : Option V)
    (decoder_hyperparameters : Option (Dict V))
    (scheduler_fn : Option (V → Dict V → V))
    (scheduler_hyperparameters : Option (Dict V))
    (scheduler_configRef : Option Nat)
    (h : Heap V) (nextObj : Nat) :
    Except String (KoopmanDNNModule V × Nat) :=
  match model_hyperparameters with
  | _ :: _ =>
      .error "AttributeError: KoopmanDNNModule object has no attribute hparamsxz"
  | [] =>
    let hp : Dict V := []
    let hp := insertAll "optim_" optimizer_hyperparameters hp
    match koopman_estimator_hyperparameters with
    | none => .error "AttributeError: NoneType object has no attribute items"
    | some kh =>
      let hp := insertAll "koop_" kh hp
      match decoder_hyperparameters with
      | none => .error "AttributeError: NoneType object has no attribute items"
      | some dh =>
        let hp := insertAll "dec_" dh hp
        match scheduler_hyperparameters with
        | none => .error "AttributeError: NoneType object has no attribute items"
        | some sh =>
          let hp := insertAll "sched_" sh hp
          match scheduler_configRef with
          | none => .error "AttributeError: NoneType object has no attribute items"
          | some scr =>
            let hp := insertAll "sched_" (h.get scr) hp
            .ok ({ hparams := hp, modelId := nextObj,
                   koopman_estimator := koopman_estimator, decoder := decoder,
                   optimizer_fn := optimizer_fn, scheduler_fn := scheduler_fn,
                   optimizer_hyperparameters := optimizer_hyperparameters,
                   scheduler_hyperparameters := sh,
                   scheduler_configRef := scr, loss_fn := loss_fn },
                 nextObj + 1)

/-- `KoopmanDNNModule.configure_optimizers`: textually identical to the
DPNets version. -/
def KoopmanDNNModule.configure_optimizers {V : Type}
    (m : KoopmanDNNModule V) (ps : V) (h : Heap V) :
    OptimResult V × KoopmanDNNModule V × Heap V :=
  let optimizer := m.optimizer_fn ps m.optimizer_hyperparameters
  match m.scheduler_fn with
  | some sfn =>
    let scheduler := sfn optimizer m.scheduler_hyperparameters
    let (h1, r) := h.alloc (h.get m.scheduler_configRef)
    let h2 := h1.set r (pyInsert (h1.get r) "scheduler" scheduler)
    (.withSched [optimizer] [h2.get r], m, h2)
  | none => (.bare optimizer, m, h)

/-- `KoopmanDNNModule.base_step` is a stub: `raise NotImplementedError`
unconditionally, before touching the batch. -/
def KoopmanDNNModule.base_step {V : Type}
    (m : KoopmanDNNModule V) (env : NetEnv V) (batch : Dict V)
    (batchIdx : Nat) : Except String (Dict V) :=
  .error "NotImplementedError"

/-- `KoopmanDNNModule.training_step` delegates to `base_step`. -/
def KoopmanDNNModule.training_step {V : Type}
    (m : KoopmanDNNModule V) (env : NetEnv V) (train_batch : Dict V)
    (batchIdx : Nat) : Except String (Dict V) :=
  m.base_step env train_batch batchIdx

/-- `KoopmanDNNModule.validation_step` delegates to `base_step`. -/
def KoopmanDNNModule.validation_step {V : Type}
    (m : KoopmanDNNModule V) (env : NetEnv V) (valid_batch : Dict V)
    (batchIdx : Nat) : Except String (Dict V) :=
  m.base_step env valid_batch batchIdx

/-- `KoopmanDNNModule.test_step` delegates to `base_step`. -/
def KoopmanDNNModule.test_step {V : Type}
    (m : KoopmanDNNModule V) (env : NetEnv V) (test_batch : Dict V)
    (batchIdx : Nat) : Except String (Dict V) :=
  m.base_step env test_batch batchIdx

/-- A NumPy array of dimension at most two (the claims about the feature
maps only concern outputs whose coerced shape is two-dimensional). -/
inductive NpArr (α : Type) where
  | a0 (x : α)
  | a1 (xs : List α)
  | a2 (xss : List (List α))
  deriving DecidableEq

/-- `np.atleast_2d`: a scalar becomes shape `(1, 1)`, a 1-D array of
length `k` becomes shape `(1, k)`, a 2-D array is unchanged. -/
def atleast2d {α : Type} : NpArr α → List (List α)
  | .a0 x => [[x]]
  | .a1 xs => [xs]
  | .a2 xss => xss

/-- `np.concatenate(·, axis=-1)` on a sequence of 2-D arrays with equal
row counts: rows are concatenated pointwise.  (NumPy raises on an empty
sequence or mismatched row counts; the claims assume a non-empty
sequence of arrays with a common row count `n`.) -/
def concatLast {α : Type} : List (List (List α)) → List (List α)
  | [] => []
  | m :: ms =>
    match ms with
    | [] => m
    | _ :: _ => List.zipWith (fun r s => r ++ s) m (concatLast ms)

/-- `IdentityFeatureMap.__call__`: returns `np.atleast_2d(X)`. -/
def IdentityFeatureMap.call {α : Type} (X : NpArr α) : List (List α) :=
  atleast2d X

/-- `ConcatenateFeatureMaps` holds the sequence of feature-producing
callables given to its constructor. -/
structure ConcatenateFeatureMaps (α : Type) where
  feature_maps : List (NpArr α → NpArr α)

/-- `ConcatenateFeatureMaps.__call__`: applies every feature map to `X`,
coerces each output with `np.atleast_2d`, and concatenates the results
along the last axis (the returned value is the 2-D array's data). -/
def ConcatenateFeatureMaps.call {α : Type}
    (self : ConcatenateFeatureMaps α) (X : NpArr α) : List (List α) :=
  concatLast (self.feature_maps.map (fun fm => atleast2d (fm X)))

/-- Shape predicate: `M` is a 2-D array of shape `(n, a)`. -/
def Shape2 {α : Type} (M : List (List α)) (n a : Nat) : Prop :=
  M.length = n ∧ ∀ r ∈ M, r.length = a

instance {α : Type} (M : List (List α)) (n a : Nat) :
    Decidable (Shape2 M n a) := by
  unfold Shape2; infer_instance

/-! Helper lemmas about strings, heaps and the flattening loop. -/

theorem string_append_cancel (p : String) {s t : String}
    (h : p ++ s = p ++ t) : s = t := by
  have hd := congrArg String.data h
  simp [String.data_append] at hd
  exact String.ext hd

theorem string_append_ne (p : String) {s t : String} (h : s ≠ t) :
    p ++ s ≠ p ++ t :=
  fun he => h (string_append_cancel p he)

theorem heap_get_alloc_self {V : Type} (h : Heap V) (d : Dict V) :
    (h.alloc d).1.get (h.alloc d).2 = d := by
  simp [Heap.alloc, Heap.get, List.getD]

theorem heap_get_alloc_lt {V : Type} (h : Heap V) (d : Dict V) (r : Nat)
    (hr : r < h.dicts.length) : (h.alloc d).1.get r = h.get r := by
  simp [Heap.alloc, Heap.get, List.getD, List.getElem?_append, hr]

theorem heap_get_set_self {V : Type} (h : Heap V) (r : Nat) (d : Dict V)
    (hr : r < h.dicts.length) : (h.set r d).get r = d := by
  simp [Heap.set, Heap.get, List.getD, List.getElem?_set_self, hr]

theorem heap_get_set_ne {V : Type} (h : Heap V) (r r' : Nat) (d : Dict V)
    (hne : r' ≠ r) : (h.set r d).get r' = h.get r' := by
  simp [Heap.set, Heap.get, List.getD,
        List.getElem?_set_ne (fun hh => hne hh.symm)]

theorem insertAll_nil {V : Type} (p : String) (d : Dict V) :
    insertAll p [] d = d := rfl

theorem insertAll_cons {V : Type} (p : String) (kv : String × V)
    (m d : Dict V) :
    insertAll p (kv :: m) d = insertAll p m (pyInsert d (p ++ kv.1) kv.2) :=
  rfl

theorem dget_pyInsert {V : Type} (d : Dict V) (k q : String) (v : V) :
    dget (pyInsert d k v) q = if k = q then some v else dget d q := rfl

/-- A flattening loop whose prefixed keys all differ from `q` leaves the
lookup of `q` unchanged. -/
theorem dget_insertAll_of_ne {V : Type} (p q : String) (m d : Dict V)
    (hne : ∀ kv ∈ m, p ++ kv.1 ≠ q) :
    dget (insertAll p m d) q = dget d q := by
  induction m generalizing d with
  | nil => rfl
  | cons kv m' ih =>
    rw [insertAll_cons,
        ih (pyInsert d (p ++ kv.1) kv.2) (fun kv' hm => hne kv' (by simp [hm])),
        dget_pyInsert, if_neg (hne kv (by simp))]

/-- A flattening loop over a mapping with no duplicate keys makes the
prefixed lookup of any of its keys return that key's value. -/
theorem dget_insertAll_mem {V : Type} (p k : String) (v : V) (m d : Dict V)
    (hnd : (m.map Prod.fst).Nodup) (hin : dget m k = some v) :
    dget (insertAll p m d) (p ++ k) = some v := by
  induction m generalizing d with
  | nil => simp [dget] at hin
  | cons kv m' ih =>
    obtain ⟨k₁, v₁⟩ := kv
    rw [List.map_cons, List.nodup_cons] at hnd
    by_cases hk : k₁ = k
    · have hv : v₁ = v := by
        rw [dget, if_pos hk] at hin
        exact Option.some.inj hin
      rw [insertAll_cons,
          dget_insertAll_of_ne p (p ++ k) m' _
            (fun kv' hm => string_append_ne p (by
              intro he
              exact hnd.1 (List.mem_map.mpr ⟨kv', hm, he.trans hk.symm⟩))),
          dget_pyInsert, if_pos (by rw [hk]), hv]
    · have hin' : dget m' k = some v := by
        rw [dget, if_neg hk] at hin
        exact hin
      rw [insertAll_cons]
      exact ih _ hnd.2 hin'

/-! Claim theorems. -/

/-- C3: `KoopmanDNNModule.base_step` fails with a "not implemented"
signal for every batch and batch index, and `training_step`,
`validation_step` and `test_step`, which each delegate to `base_step`,
fail identically. -/
theorem koopman_steps_not_implemented {V : Type}
    (m : KoopmanDNNModule V) (env : NetEnv V) (batch : Dict V) (i : Nat) :
    m.base_step env batch i = .error "NotImplementedError" ∧
    m.training_step env batch i = .error "NotImplementedError" ∧
    m.validation_step env batch i = .error "NotImplementedError" ∧
    m.test_step env batch i = .error "NotImplementedError" :=
  ⟨rfl, rfl, rfl, rfl⟩

/-- C1 (failing input): constructing a `KoopmanDNNModule` with the
single primary-model hyperparameter `lr` (and every other mapping
supplied and empty) does not produce a flat configuration containing
`lr`; the first flattening loop reads the nonexistent attribute
`hparamsxz` and construction fails with `AttributeError`. -/
theorem koopman_init_hparamsxz_bug :
    koopmanDNNInit (V := Nat) [("lr", 1)] (fun _ _ => 0) [] (fun _ _ => 0)
      none (some []) none (some []) none (some []) (some 0) ⟨[[]]⟩ 0
    = .error "AttributeError: KoopmanDNNModule object has no attribute hparamsxz" :=
  rfl

/-- C2: after `DPNetsModule` construction, `model_2` is the very same
object as `model` exactly when `model_class_2` is omitted, a distinct
object when it is supplied, and `configure_optimizers` (the only
state-threaded operation of the module) returns the module unchanged, so
the identity relation is never altered after construction. -/
theorem dpnets_model2_identity {V C : Type}
    (mh ohp m2h sh : Dict V) (ofn : V → Dict V → V) (lfn : V → V → V)
    (sfn : Option (V → Dict V → V)) (scr : Nat)
    (h : Heap V) (n : Nat) (c : C)
    (m : DPNetsModule V) (ps : V) (hh : Heap V) :
    (dpnetsInit mh ofn ohp lfn sfn (some sh) (some scr)
        (none : Option C) (some m2h) h n).map
        (fun p => decide (p.1.model2Id = p.1.modelId)) = .ok true ∧
    (dpnetsInit mh ofn ohp lfn sfn (some sh) (some scr)
        (some c) (some m2h) h n).map
        (fun p => decide (p.1.model2Id = p.1.modelId)) = .ok false ∧
    (m.configure_optimizers ps hh).2.1 = m := by
  refine ⟨?_, ?_, ?_⟩
  · simp [dpnetsInit, Except.map]
  · simp [dpnetsInit, Except.map]
  · cases hms : m.scheduler_fn <;>
      simp [DPNetsModule.configure_optimizers, hms, Heap.alloc]

/-- C8: every defaulted hyperparameter mapping is required: leaving
`model_hyperparameters_2`, `scheduler_hyperparameters` or
`scheduler_config` at `None` makes `DPNetsModule` construction fail even
when `model_class_2` and `scheduler_fn` are `None`, and likewise
`KoopmanDNNModule` requires `koopman_estimator_hyperparameters`,
`decoder_hyperparameters`, `scheduler_hyperparameters` and
`scheduler_config`; with all mappings supplied and only `scheduler_fn`,
`model_class_2`, the estimator and the decoder omitted, construction
succeeds (the KoopmanDNN case is stated with an empty
`model_hyperparameters` so that only the `None` mapping is at issue). -/
theorem init_requires_all_hyperparameter_mappings {V C : Type}
    (mh ohp m2h sh kh dh : Dict V) (ofn : V → Dict V → V) (lfn : V → V → V)
    (sfn : Option (V → Dict V → V)) (shOpt scOpt khOpt dhOpt : Option (Dict V))
    (scrOpt : Option Nat) (scr : Nat) (mc2 : Option C) (ke de : Option V)
    (h : Heap V) (n : Nat) :
    (dpnetsInit mh ofn ohp lfn sfn shOpt scrOpt mc2 (none : Option (Dict V)) h n).isOk
        = false ∧
    (dpnetsInit mh ofn ohp lfn sfn (none : Option (Dict V)) scrOpt mc2 (some m2h)
        h n).isOk = false ∧
    (dpnetsInit mh ofn ohp lfn sfn (some sh) (none : Option Nat) mc2 (some m2h)
        h n).isOk = false ∧
    (dpnetsInit mh ofn ohp lfn none (some sh) (some scr) (none : Option C)
        (some m2h) h n).isOk = true ∧
    (koopmanDNNInit [] ofn ohp lfn ke (none : Option (Dict V)) de dhOpt sfn
        shOpt scrOpt h n).isOk = false ∧
    (koopmanDNNInit [] ofn ohp lfn ke (some kh) de (none : Option (Dict V)) sfn
        shOpt scrOpt h n).isOk = false ∧
    (koopmanDNNInit [] ofn ohp lfn ke (some kh) de (some dh) sfn
        (none : Option (Dict V)) scrOpt h n).isOk = false ∧
    (koopmanDNNInit [] ofn ohp lfn ke (some kh) de (some dh) sfn (some sh)
        (none : Option Nat) h n).isOk = false ∧
    (koopmanDNNInit [] ofn ohp lfn none (some kh) none (some dh) none (some sh)
        (some scr) h n).isOk = true := by
  refine ⟨rfl, rfl, rfl, rfl, rfl, rfl, rfl, rfl, rfl⟩

/-- C4: `configure_optimizers` of either module returns the bare
optimizer `optimizer_fn(parameters, **optimizer_hyperparameters)` when
`scheduler_fn` is `None`, and otherwise the pair of singleton lists
`([optimizer], [config])` where `config` is the stored
`scheduler_config` dict extended so that its `scheduler` key holds the
freshly constructed `scheduler_fn(optimizer, **scheduler_hyperparameters)`
bound to that optimizer. -/
theorem configure_optimizers_shapes {V : Type}
    (hp ohp shp : Dict V) (mid m2id scr : Nat) (ofn : V → Dict V → V)
    (lfn : V → V → V) (sfn : V → Dict V → V) (ps : V) (h : Heap V)
    (ke de : Option V) :
    ((DPNetsModule.mk hp mid m2id ofn none ohp shp scr lfn).configure_optimizers
        ps h).1 = .bare (ofn ps ohp) ∧
    ((DPNetsModule.mk hp mid m2id ofn (some sfn) ohp shp scr
        lfn).configure_optimizers ps h).1
      = .withSched [ofn ps ohp]
          [pyInsert (h.get scr) "scheduler" (sfn (ofn ps ohp) shp)] ∧
    ((KoopmanDNNModule.mk hp mid ke de ofn none ohp shp scr
        lfn).configure_optimizers ps h).1 = .bare (ofn ps ohp) ∧
    ((KoopmanDNNModule.mk hp mid ke de ofn (some sfn) ohp shp scr
        lfn).configure_optimizers ps h).1
      = .withSched [ofn ps ohp]
          [pyInsert (h.get scr) "scheduler" (sfn (ofn ps ohp) shp)] := by
  have hlen : h.dicts.length < (h.dicts ++ [h.get scr]).length := by simp
  refine ⟨rfl, ?_, rfl, ?_⟩ <;>
    simp [DPNetsModule.configure_optimizers,
          KoopmanDNNModule.configure_optimizers, Heap.alloc, Heap.set,
          Heap.get, List.getD, List.getElem?_set_self, hlen,
          List.getElem?_append]

/-- Frame lemma for `configure_optimizers`: every dict at an address
that was live before the call is untouched (only the fresh copy is
mutated). -/
theorem dpnets_configure_optimizers_heap_frame {V : Type}
    (m : DPNetsModule V) (ps : V) (h : Heap V) (r' : Nat)
    (hr' : r' < h.dicts.length) :
    (m.configure_optimizers ps h).2.2.get r' = h.get r' := by
  cases hms : m.scheduler_fn with
  | none => simp [DPNetsModule.configure_optimizers, hms]
  | some sfn =>
    have hne : r' ≠ h.dicts.length := Nat.ne_of_lt hr'
    simp [DPNetsModule.configure_optimizers, hms, Heap.alloc, Heap.set,
          Heap.get, List.getD, List.getElem?_set_ne (fun hh => hne hh.symm),
          List.getElem?_append, hr']

/-- The result value of `configure_optimizers` depends on the heap only
through the content of the stored `scheduler_config` dict. -/
theorem dpnets_configure_optimizers_fst_congr {V : Type}
    (m : DPNetsModule V) (ps : V) (h h' : Heap V)
    (hc : h.get m.scheduler_configRef = h'.get m.scheduler_configRef) :
    (m.configure_optimizers ps h).1 = (m.configure_optimizers ps h').1 := by
  cases hms : m.scheduler_fn with
  | none => simp [DPNetsModule.configure_optimizers, hms]
  | some sfn =>
    have hlen : ∀ hh : Heap V,
        hh.dicts.length < (hh.dicts ++ [hh.get m.scheduler_configRef]).length := by
      intro hh; simp
    simp [DPNetsModule.configure_optimizers, hms, Heap.alloc, Heap.set,
          Heap.get, List.getD, List.getElem?_set_self, hlen h, hlen h',
          List.getElem?_append]
    simp [Heap.get, List.getD] at hc
    rw [hc]

/-- Frame lemma for the Koopman variant of `configure_optimizers`:
every dict at an address that was live before the call is untouched
(only the fresh copy is mutated). -/
theorem koopman_configure_optimizers_heap_frame {V : Type}
    (m : KoopmanDNNModule V) (ps : V) (h : Heap V) (r' : Nat)
    (hr' : r' < h.dicts.length) :
    (m.configure_optimizers ps h).2.2.get r' = h.get r' := by
  cases hms : m.scheduler_fn with
  | none => simp [KoopmanDNNModule.configure_optimizers, hms]
  | some sfn =>
    have hne : r' ≠ h.dicts.length := Nat.ne_of_lt hr'
    simp [KoopmanDNNModule.configure_optimizers, hms, Heap.alloc, Heap.set,
          Heap.get, List.getD, List.getElem?_set_ne (fun hh => hne hh.symm),
          List.getElem?_append, hr']

/-- The result value of the Koopman variant of `configure_optimizers`
depends on the heap only through the content of the stored
`scheduler_config` dict. -/
theorem koopman_configure_optimizers_fst_congr {V : Type}
    (m : KoopmanDNNModule V) (ps : V) (h h' : Heap V)
    (hc : h.get m.scheduler_configRef = h'.get m.scheduler_configRef) :
    (m.configure_optimizers ps h).1 = (m.configure_optimizers ps h').1 := by
  cases hms : m.scheduler_fn with
  | none => simp [KoopmanDNNModule.configure_optimizers, hms]
  | some sfn =>
    have hlen : ∀ hh : Heap V,
        hh.dicts.length < (hh.dicts ++ [hh.get m.scheduler_configRef]).length := by
      intro hh; simp
    simp [KoopmanDNNModule.configure_optimizers, hms, Heap.alloc, Heap.set,
          Heap.get, List.getD, List.getElem?_set_self, hlen h, hlen h',
          List.getElem?_append]
    simp [Heap.get, List.getD] at hc
    rw [hc]

/-- C10: when `scheduler_fn` is set, `configure_optimizers` of either
module mutates only the fresh `scheduler_config.copy()`: the dict the
module's stored `scheduler_config` refers to is unchanged by the call,
it acquires no `scheduler` key if it had none, and a repeated call
starting from the post-call heap returns the same result as the first
call. -/
theorem configure_optimizers_preserves_scheduler_config {V : Type}
    (m : DPNetsModule V) (km : KoopmanDNNModule V) (ps : V) (h : Heap V)
    (sfn ksfn : V → Dict V → V)
    (hs : m.scheduler_fn = some sfn)
    (hks : km.scheduler_fn = some ksfn)
    (hr : m.scheduler_configRef < h.dicts.length)
    (hkr : km.scheduler_configRef < h.dicts.length) :
    ((m.configure_optimizers ps h).2.2.get m.scheduler_configRef
        = h.get m.scheduler_configRef ∧
      (dget (h.get m.scheduler_configRef) "scheduler" = none →
        dget ((m.configure_optimizers ps h).2.2.get m.scheduler_configRef)
            "scheduler" = none) ∧
      (m.configure_optimizers ps (m.configure_optimizers ps h).2.2).1
          = (m.configure_optimizers ps h).1) ∧
    ((km.configure_optimizers ps h).2.2.get km.scheduler_configRef
        = h.get km.scheduler_configRef ∧
      (dget (h.get km.scheduler_configRef) "scheduler" = none →
        dget ((km.configure_optimizers ps h).2.2.get km.scheduler_configRef)
            "scheduler" = none) ∧
      (km.configure_optimizers ps (km.configure_optimizers ps h).2.2).1
          = (km.configure_optimizers ps h).1) := by
  have h1 := dpnets_configure_optimizers_heap_frame m ps h
    m.scheduler_configRef hr
  have h2 := koopman_configure_optimizers_heap_frame km ps h
    km.scheduler_configRef hkr
  exact ⟨⟨h1, fun hn => by rw [h1]; exact hn,
      dpnets_configure_optimizers_fst_congr m ps _ h h1⟩,
    ⟨h2, fun hn => by rw [h2]; exact hn,
      koopman_configure_optimizers_fst_congr km ps _ h h2⟩⟩

/-- Witness for C10 at concrete modules of both kinds sharing one
concrete heap. -/
theorem configure_optimizers_preserves_scheduler_config_witness :
    ((DPNetsModule.mk (V := Nat) [] 0 0 (fun _ _ => 5) (some (fun o _ => o + 1))
        [] [] 0 (fun a b => a - b)).scheduler_fn = some (fun o _ => o + 1) ∧
      (KoopmanDNNModule.mk (V := Nat) [] 0 none none (fun _ _ => 5)
        (some (fun o _ => o + 1)) [] [] 0 (fun a b => a - b)).scheduler_fn
        = some (fun o _ => o + 1) ∧
      (DPNetsModule.mk (V := Nat) [] 0 0 (fun _ _ => 5) (some (fun o _ => o + 1))
        [] [] 0 (fun a b => a - b)).scheduler_configRef
        < (Heap.mk (V := Nat) [[("monitor", 3)]]).dicts.length ∧
      (KoopmanDNNModule.mk (V := Nat) [] 0 none none (fun _ _ => 5)
        (some (fun o _ => o + 1)) [] [] 0 (fun a b => a - b)).scheduler_configRef
        < (Heap.mk (V := Nat) [[("monitor", 3)]]).dicts.length) ∧
    ((((DPNetsModule.mk (V := Nat) [] 0 0 (fun _ _ => 5) (some (fun o _ => o + 1))
        [] [] 0 (fun a b => a - b)).configure_optimizers 9
        (Heap.mk [[("monitor", 3)]])).2.2.get 0 = [("monitor", 3)] ∧
      (dget ([("monitor", 3)] : Dict Nat) "scheduler" = none →
        dget (((DPNetsModule.mk (V := Nat) [] 0 0 (fun _ _ => 5)
            (some (fun o _ => o + 1)) [] [] 0
            (fun a b => a - b)).configure_optimizers 9
            (Heap.mk [[("monitor", 3)]])).2.2.get 0) "scheduler" = none) ∧
      ((DPNetsModule.mk (V := Nat) [] 0 0 (fun _ _ => 5) (some (fun o _ => o + 1))
          [] [] 0 (fun a b => a - b)).configure_optimizers 9
          (((DPNetsModule.mk (V := Nat) [] 0 0 (fun _ _ => 5)
            (some (fun o _ => o + 1)) [] [] 0
            (fun a b => a - b)).configure_optimizers 9
            (Heap.mk [[("monitor", 3)]])).2.2)).1
        = ((DPNetsModule.mk (V := Nat) [] 0 0 (fun _ _ => 5)
            (some (fun o _ => o + 1)) [] [] 0
            (fun a b => a - b)).configure_optimizers 9
            (Heap.mk [[("monitor", 3)]])).1) ∧
      (((KoopmanDNNModule.mk (V := Nat) [] 0 none none (fun _ _ => 5)
        (some (fun o _ => o + 1)) [] [] 0 (fun a b => a - b)).configure_optimizers 9
        (Heap.mk [[("monitor", 3)]])).2.2.get 0 = [("monitor", 3)] ∧
      (dget ([("monitor", 3)] : Dict Nat) "scheduler" = none →
        dget (((KoopmanDNNModule.mk (V := Nat) [] 0 none none (fun _ _ => 5)
            (some (fun o _ => o + 1)) [] [] 0
            (fun a b => a - b)).configure_optimizers 9
            (Heap.mk [[("monitor", 3)]])).2.2.get 0) "scheduler" = none) ∧
      ((KoopmanDNNModule.mk (V := Nat) [] 0 none none (fun _ _ => 5)
          (some (fun o _ => o + 1)) [] [] 0 (fun a b => a - b)).configure_optimizers 9
          (((KoopmanDNNModule.mk (V := Nat) [] 0 none none (fun _ _ => 5)
            (some (fun o _ => o + 1)) [] [] 0
            (fun a b => a - b)).configure_optimizers 9
            (Heap.mk [[("monitor", 3)]])).2.2)).1
        = ((KoopmanDNNModule.mk (V := Nat) [] 0 none none (fun _ _ => 5)
            (some (fun o _ => o + 1)) [] [] 0
            (fun a b => a - b)).configure_optimizers 9
            (Heap.mk [[("monitor", 3)]])).1)) :=
  ⟨⟨rfl, rfl, by decide, by decide⟩,
    configure_optimizers_preserves_scheduler_config
      (DPNetsModule.mk [] 0 0 (fun _ _ => 5) (some (fun o _ => o + 1))
        [] [] 0 (fun a b => a - b))
      (KoopmanDNNModule.mk [] 0 none none (fun _ _ => 5)
        (some (fun o _ => o + 1)) [] [] 0 (fun a b => a - b))
      9 (Heap.mk [[("monitor", 3)]])
      (fun o _ => o + 1) (fun o _ => o + 1) rfl rfl (by decide) (by decide)⟩

/-- C6: hyperparameter flattening performs no collision check — a later
insert silently overwrites an earlier insert with the same full key, and
construction still succeeds.  In particular every key `k` of the stored
`scheduler_config` dict ends up as `sched_k ↦ scheduler_config[k]` in
the flat configuration (overriding any `sched_k` inserted earlier from
`scheduler_hyperparameters`), for `DPNetsModule` and for a successfully
constructed `KoopmanDNNModule`. -/
theorem hparams_collision_overwrite {V C : Type}
    (mh ohp m2h sh kh dh : Dict V) (ofn : V → Dict V → V) (lfn : V → V → V)
    (sfn : Option (V → Dict V → V)) (scr : Nat) (h : Heap V) (n : Nat)
    (mc2 : Option C) (ke de : Option V) (k : String) (v : V)
    (hnd : ((h.get scr).map Prod.fst).Nodup)
    (hv : dget (h.get scr) k = some v) :
    (dpnetsInit mh ofn ohp lfn sfn (some sh) (some scr) mc2 (some m2h) h n).map
        (fun p => dget p.1.hparams ("sched_" ++ k)) = .ok (some v) ∧
    (koopmanDNNInit [] ofn ohp lfn ke (some kh) de (some dh) sfn (some sh)
        (some scr) h n).map
        (fun p => dget p.1.hparams ("sched_" ++ k)) = .ok (some v) := by
  constructor
  · cases mc2 <;>
      simp [dpnetsInit, Except.map, dget_insertAll_mem "sched_" k v _ _ hnd hv]
  · simp [koopmanDNNInit, Except.map,
          dget_insertAll_mem "sched_" k v _ _ hnd hv]

/-- Witness for C6: the key `x` appears in `scheduler_hyperparameters`
with value `5` and in `scheduler_config` with value `2`; the flat
configuration maps `sched_x` to `2`. -/
theorem hparams_collision_overwrite_witness :
    (((Heap.mk (V := Nat) [[("a", 1), ("x", 2)]]).get 0).map Prod.fst).Nodup ∧
    dget ((Heap.mk (V := Nat) [[("a", 1), ("x", 2)]]).get 0) "x" = some 2 ∧
    ((dpnetsInit (V := Nat) (C := Unit) [("w", 9)] (fun _ _ => 0) [] (fun a b => a - b)
        none (some [("x", 5)]) (some 0) none (some []) ⟨[[("a", 1), ("x", 2)]]⟩ 0).map
        (fun p => dget p.1.hparams ("sched_" ++ "x")) = .ok (some 2) ∧
      (koopmanDNNInit (V := Nat) [] (fun _ _ => 0) [] (fun a b => a - b) none (some [])
        none (some []) none (some [("x", 5)]) (some 0) ⟨[[("a", 1), ("x", 2)]]⟩ 0).map
        (fun p => dget p.1.hparams ("sched_" ++ "x")) = .ok (some 2)) :=
  ⟨by decide, by decide,
    hparams_collision_overwrite (C := Unit) [("w", 9)] [] [] [("x", 5)] [] []
      (fun _ _ => 0) (fun a b => a - b) none 0 ⟨[[("a", 1), ("x", 2)]]⟩ 0
      none none none "x" 2 (by decide) (by decide)⟩

/-- C5: for a batch containing `x_value` and `y_value`,
`DPNetsModule.base_step` feeds `{'x_value': batch['x_value']}` to
`model` and `{'x_value': batch['y_value']}` to `model_2`, extracts each
output's `x_encoded` entry, and returns exactly
`{'loss': loss_fn(x_encoded, y_encoded)}`; `training_step` and
`validation_step` return this same result unmodified. -/
theorem dpnets_base_step_spec {V : Type}
    (m : DPNetsModule V) (env : NetEnv V) (batch : Dict V) (i : Nat)
    (xv yv xe ye : V)
    (hx : dget batch "x_value" = some xv)
    (hy : dget batch "y_value" = some yv)
    (hex : dget (env.call m.modelId [("x_value", xv)]) "x_encoded" = some xe)
    (hey : dget (env.call m.model2Id [("x_value", yv)]) "x_encoded" = some ye) :
    m.base_step env batch i = .ok [("loss", m.loss_fn xe ye)] ∧
    m.training_step env batch i = m.base_step env batch i ∧
    m.validation_step env batch i = m.base_step env batch i := by
  refine ⟨?_, rfl, rfl⟩
  simp [DPNetsModule.base_step, hx, hy, hex, hey]

/-- Witness for C5 at a concrete module, network environment and
batch. -/
theorem dpnets_base_step_spec_witness :
    (dget ([("x_value", 4), ("y_value", 6)] : Dict Nat) "x_value" = some 4 ∧
      dget ([("x_value", 4), ("y_value", 6)] : Dict Nat) "y_value" = some 6 ∧
      dget ((NetEnv.mk (V := Nat) (fun i d => [("x_encoded",
          i + 10 * (dget d "x_value").getD 0)])).call 1 [("x_value", 4)])
          "x_encoded" = some 41 ∧
      dget ((NetEnv.mk (V := Nat) (fun i d => [("x_encoded",
          i + 10 * (dget d "x_value").getD 0)])).call 2 [("x_value", 6)])
          "x_encoded" = some 62) ∧
    ((DPNetsModule.mk (V := Nat) [] 1 2 (fun _ _ => 0) none [] [] 0
        (fun a b => a + b)).base_step
        (NetEnv.mk (fun i d => [("x_encoded", i + 10 * (dget d "x_value").getD 0)]))
        [("x_value", 4), ("y_value", 6)] 0 = .ok [("loss", 103)] ∧
      (DPNetsModule.mk (V := Nat) [] 1 2 (fun _ _ => 0) none [] [] 0
        (fun a b => a + b)).training_step
        (NetEnv.mk (fun i d => [("x_encoded", i + 10 * (dget d "x_value").getD 0)]))
        [("x_value", 4), ("y_value", 6)] 0
        = (DPNetsModule.mk (V := Nat) [] 1 2 (fun _ _ => 0) none [] [] 0
          (fun a b => a + b)).base_step
          (NetEnv.mk (fun i d => [("x_encoded", i + 10 * (dget d "x_value").getD 0)]))
          [("x_value", 4), ("y_value", 6)] 0 ∧
      (DPNetsModule.mk (V := Nat) [] 1 2 (fun _ _ => 0) none [] [] 0
        (fun a b => a + b)).validation_step
        (NetEnv.mk (fun i d => [("x_encoded", i + 10 * (dget d "x_value").getD 0)]))
        [("x_value", 4), ("y_value", 6)] 0
        = (DPNetsModule.mk (V := Nat) [] 1 2 (fun _ _ => 0) none [] [] 0
          (fun a b => a + b)).base_step
          (NetEnv.mk (fun i d => [("x_encoded", i + 10 * (dget d "x_value").getD 0)]))
          [("x_value", 4), ("y_value", 6)] 0) :=
  ⟨⟨by decide, by decide, by decide, by decide⟩,
    dpnets_base_step_spec
      (DPNetsModule.mk [] 1 2 (fun _ _ => 0) none [] [] 0 (fun a b => a + b))
      (NetEnv.mk (fun i d => [("x_encoded", i + 10 * (dget d "x_value").getD 0)]))
      [("x_value", 4), ("y_value", 6)] 0 4 6 41 62
      (by decide) (by decide) (by decide) (by decide)⟩

/-- C7: on a batch whose `x_value` equals its `y_value`, a module whose
`model_2` is `model` (the shared-encoder mode) computes the loss as
`loss_fn` applied to two identical encoded representations. -/
theorem dpnets_shared_encoder_equal_views {V : Type}
    (m : DPNetsModule V) (env : NetEnv V) (batch : Dict V) (i : Nat)
    (v e : V)
    (hshare : m.model2Id = m.modelId)
    (hx : dget batch "x_value" = some v)
    (hy : dget batch "y_value" = some v)
    (he : dget (env.call m.modelId [("x_value", v)]) "x_encoded" = some e) :
    m.base_step env batch i = .ok [("loss", m.loss_fn e e)] := by
  simp [DPNetsModule.base_step, hx, hy, hshare, he]

/-- Witness for C7: with a distance-like loss `a - b` the loss on equal
views of a shared encoder evaluates to `loss_fn e e = 0`. -/
theorem dpnets_shared_encoder_equal_views_witness :
    ((DPNetsModule.mk (V := Nat) [] 3 3 (fun _ _ => 0) none [] [] 0
        (fun a b => a - b)).model2Id
      = (DPNetsModule.mk (V := Nat) [] 3 3 (fun _ _ => 0) none [] [] 0
        (fun a b => a - b)).modelId ∧
      dget ([("x_value", 7), ("y_value", 7)] : Dict Nat) "x_value" = some 7 ∧
      dget ([("x_value", 7), ("y_value", 7)] : Dict Nat) "y_value" = some 7 ∧
      dget ((NetEnv.mk (V := Nat) (fun i d => [("x_encoded",
          i + 10 * (dget d "x_value").getD 0)])).call 3 [("x_value", 7)])
          "x_encoded" = some 73) ∧
    (DPNetsModule.mk (V := Nat) [] 3 3 (fun _ _ => 0) none [] [] 0
        (fun a b => a - b)).base_step
        (NetEnv.mk (fun i d => [("x_encoded", i + 10 * (dget d "x_value").getD 0)]))
        [("x_value", 7), ("y_value", 7)] 0 = .ok [("loss", 0)] :=
  ⟨⟨rfl, by decide, by decide, by decide⟩,
    dpnets_shared_encoder_equal_views
      (DPNetsModule.mk [] 3 3 (fun _ _ => 0) none [] [] 0 (fun a b => a - b))
      (NetEnv.mk (fun i d => [("x_encoded", i + 10 * (dget d "x_value").getD 0)]))
      [("x_value", 7), ("y_value", 7)] 0 7 73 rfl
      (by decide) (by decide) (by decide)⟩

/-- Pointwise concatenation of two 2-D arrays of shapes `(n, a)` and
`(n, b)` has shape `(n, a + b)`. -/
theorem shape2_zipWith_append {α : Type} :
    ∀ (A B : List (List α)) (n a b : Nat), Shape2 A n a → Shape2 B n b →
      Shape2 (List.zipWith (fun r s => r ++ s) A B) n (a + b) := by
  intro A
  induction A with
  | nil =>
    intro B n a b hA hB
    refine ⟨?_, ?_⟩
    · rw [← hA.1]; rfl
    · intro r hr
      simp at hr
  | cons r A' ih =>
    intro B n a b hA hB
    cases B with
    | nil =>
      have h1 := hA.1
      have h2 := hB.1
      simp at h1 h2
      omega
    | cons s B' =>
      have hA' : Shape2 A' A'.length a :=
        ⟨rfl, fun t ht => hA.2 t (List.mem_cons_of_mem _ ht)⟩
      have hB' : Shape2 B' A'.length b := by
        refine ⟨?_, fun t ht => hB.2 t (List.mem_cons_of_mem _ ht)⟩
        have h1 := hA.1
        have h2 := hB.1
        simp at h1 h2
        omega
      have htail := ih B' A'.length a b hA' hB'
      refine ⟨?_, ?_⟩
      · have := hA.1
        simp [htail.1]
        simp at this
        omega
      · intro t ht
        rcases List.mem_cons.mp ht with h | h
        · rw [h]
          simp [hA.2 r (List.mem_cons_self r A'), hB.2 s (List.mem_cons_self s B')]
        · exact htail.2 t h

/-- A non-empty sequence of 2-D arrays of shapes `(n, a₁) ... (n, aₖ)`
concatenates along the last axis to shape `(n, a₁ + ... + aₖ)`. -/
theorem concatLast_shape {α : Type} (n : Nat) :
    ∀ (Ms : List (List (List α))) (sizes : List Nat), Ms ≠ [] →
      List.Forall₂ (fun M a => Shape2 M n a) Ms sizes →
      Shape2 (concatLast Ms) n sizes.sum := by
  intro Ms
  induction Ms with
  | nil => intro sizes hne _; exact absurd rfl hne
  | cons M Ms' ih =>
    intro sizes hne hf
    cases hf with
    | cons h1 h2 =>
      cases Ms' with
      | nil =>
        cases h2
        simpa [concatLast] using h1
      | cons M' Ms'' =>
        have htail := ih _ (by simp) h2
        have := shape2_zipWith_append M (concatLast (M' :: Ms''))
          n _ _ h1 htail
        simpa [concatLast] using this

/-- C9: `ConcatenateFeatureMaps.__call__` returns the concatenation of
the coerced (`np.atleast_2d`) feature-map outputs along the last axis;
when the sequence of maps is non-empty and the coerced output of the
`i`-th map on `X` has shape `(n, aᵢ)`, the result has shape
`(n, a₁ + ... + aₖ)`. -/
theorem concatenate_feature_maps_shape {α : Type}
    (self : ConcatenateFeatureMaps α) (X : NpArr α) (n : Nat)
    (sizes : List Nat)
    (hne : self.feature_maps ≠ [])
    (hsh : List.Forall₂ (fun fm a => Shape2 (atleast2d (fm X)) n a)
        self.feature_maps sizes) :
    self.call X
      = concatLast (self.feature_maps.map (fun fm => atleast2d (fm X))) ∧
    Shape2 (self.call X) n sizes.sum := by
  refine ⟨rfl, ?_⟩
  apply concatLast_shape
  · intro hmap
    exact hne (List.map_eq_nil_iff.mp hmap)
  · exact List.forall₂_map_left_iff.mpr hsh

/-- Witness for C9: two feature maps whose coerced outputs on the input
`[1, 2]` have shapes `(2, 1)` and `(2, 2)`; the concatenation has shape
`(2, 3)`. -/
theorem concatenate_feature_maps_shape_witness :
    ((ConcatenateFeatureMaps.mk (α := Nat) [fun _ => NpArr.a2 [[1], [2]],
        fun _ => NpArr.a2 [[3, 4], [5, 6]]]).feature_maps ≠ [] ∧
      List.Forall₂
        (fun fm a => Shape2 (atleast2d (fm (NpArr.a1 [1, 2]))) 2 a)
        (ConcatenateFeatureMaps.mk (α := Nat) [fun _ => NpArr.a2 [[1], [2]],
          fun _ => NpArr.a2 [[3, 4], [5, 6]]]).feature_maps [1, 2]) ∧
    ((ConcatenateFeatureMaps.mk (α := Nat) [fun _ => NpArr.a2 [[1], [2]],
        fun _ => NpArr.a2 [[3, 4], [5, 6]]]).call (NpArr.a1 [1, 2])
      = concatLast
          ((ConcatenateFeatureMaps.mk (α := Nat) [fun _ => NpArr.a2 [[1], [2]],
            fun _ => NpArr.a2 [[3, 4], [5, 6]]]).feature_maps.map
            (fun fm => atleast2d (fm (NpArr.a1 [1, 2])))) ∧
      Shape2 ((ConcatenateFeatureMaps.mk (α := Nat)
          [fun _ => NpArr.a2 [[1], [2]],
            fun _ => NpArr.a2 [[3, 4], [5, 6]]]).call (NpArr.a1 [1, 2]))
        2 ([1, 2].sum)) :=
  ⟨⟨by simp, List.Forall₂.cons (by decide)
      (List.Forall₂.cons (by decide) List.Forall₂.nil)⟩,
    concatenate_feature_maps_shape
      (ConcatenateFeatureMaps.mk [fun _ => NpArr.a2 [[1], [2]],
        fun _ => NpArr.a2 [[3, 4], [5, 6]]])
      (NpArr.a1 [1, 2]) 2 [1, 2] (by simp)
      (List.Forall₂.cons (by decide)
        (List.Forall₂.cons (by decide) List.Forall₂.nil))⟩

/-! Exact-union characterisation of the DPNets flattening (the half of
the flattening property that the code does satisfy). -/

theorem dget_eq_none_of_not_mem {V : Type} (m : Dict V) (q : String)
    (h : q ∉ m.map Prod.fst) : dget m q = none := by
  induction m with
  | nil => rfl
  | cons kv m' ih =>
    obtain ⟨k1, v1⟩ := kv
    simp only [List.map_cons, List.mem_cons] at h
    push_neg at h
    rw [dget, if_neg (fun hh => h.1 hh.symm), ih h.2]

theorem mem_of_dget_some {V : Type} (m : Dict V) (q : String) (v : V)
    (h : dget m q = some v) : q ∈ m.map Prod.fst := by
  induction m with
  | nil => simp [dget] at h
  | cons kv m' ih =>
    obtain ⟨k1, v1⟩ := kv
    by_cases hk : k1 = q
    · simp [hk]
    · rw [dget, if_neg hk] at h
      simp [ih h]

theorem dget_append {V : Type} (A B : Dict V) (q : String) :
    dget (A ++ B) q
      = match dget A q with
        | some v => some v
        | none => dget B q := by
  induction A with
  | nil => rfl
  | cons kv A' ih =>
    obtain ⟨k1, v1⟩ := kv
    by_cases hk : k1 = q <;> simp [dget, hk, ih]

/-- One flattening loop over a duplicate-free mapping behaves as lookup
in the prefixed mapping, falling back to the target dict. -/
theorem dget_insertAll_nodup {V : Type} (p : String) (m d : Dict V)
    (q : String) (hnd : (m.map (fun kv => p ++ kv.1)).Nodup) :
    dget (insertAll p m d) q
      = match dget (m.map (fun kv => (p ++ kv.1, kv.2))) q with
        | some v => some v
        | none => dget d q := by
  induction m generalizing d with
  | nil => rfl
  | cons kv m' ih =>
    obtain ⟨k1, v1⟩ := kv
    rw [List.map_cons, List.nodup_cons] at hnd
    rw [insertAll_cons, ih _ hnd.2]
    by_cases hq : p ++ k1 = q
    · have hnone : dget (m'.map (fun kv => (p ++ kv.1, kv.2))) q = none := by
        apply dget_eq_none_of_not_mem
        have hkeys : (m'.map (fun kv => (p ++ kv.1, kv.2))).map Prod.fst
            = m'.map (fun kv => p ++ kv.1) := by
          simp [List.map_map]
        rw [hkeys, ← hq]
        exact hnd.1
      simp [dget, hq, hnone, pyInsert]
    · have hmapped : dget (((p ++ k1, v1) :: m'.map (fun kv => (p ++ kv.1, kv.2)) : Dict V)) q
          = dget (m'.map (fun kv => (p ++ kv.1, kv.2))) q := by
        rw [dget, if_neg hq]
      simp only [List.map_cons, hmapped, pyInsert, dget, if_neg hq]

/-- For all hyperparameter mappings with pairwise-disjoint keys after
prefixing, the DPNets flattened configuration equals, as a lookup table,
the union of all entries under their prefixed names: the primary model's
keys unprefixed, the others under `model_2_`, `optim_`, `sched_`,
`sched_`.  (This is the half of the flattening property that the code
satisfies; `KoopmanDNNModule` violates it, see the claim about the
`hparamsxz` slip.) -/
theorem dpnets_hparams_exact_union {V : Type} (mh m2h oh sh sc : Dict V)
    (q : String)
    (hnd : (mh.map (fun kv => "" ++ kv.1)
        ++ (m2h.map (fun kv => "model_2_" ++ kv.1)
          ++ (oh.map (fun kv => "optim_" ++ kv.1)
            ++ (sh.map (fun kv => "sched_" ++ kv.1)
              ++ sc.map (fun kv => "sched_" ++ kv.1))))).Nodup) :
    dget (insertAll "sched_" sc (insertAll "sched_" sh (insertAll "optim_" oh
        (insertAll "model_2_" m2h (insertAll "" mh []))))) q
      = dget (mh.map (fun kv => ("" ++ kv.1, kv.2))
          ++ (m2h.map (fun kv => ("model_2_" ++ kv.1, kv.2))
            ++ (oh.map (fun kv => ("optim_" ++ kv.1, kv.2))
              ++ (sh.map (fun kv => ("sched_" ++ kv.1, kv.2))
                ++ sc.map (fun kv => ("sched_" ++ kv.1, kv.2)))))) q := by
  have d1 := List.disjoint_of_nodup_append hnd
  have hnd2 := hnd.of_append_right
  have d2 := List.disjoint_of_nodup_append hnd2
  have hnd3 := hnd2.of_append_right
  have d3 := List.disjoint_of_nodup_append hnd3
  have hnd4 := hnd3.of_append_right
  have d4 := List.disjoint_of_nodup_append hnd4
  rw [dget_insertAll_nodup _ _ _ _ (hnd4.of_append_right),
      dget_insertAll_nodup _ _ _ _ (hnd4.of_append_left),
      dget_insertAll_nodup _ _ _ _ (hnd3.of_append_left),
      dget_insertAll_nodup _ _ _ _ (hnd2.of_append_left),
      dget_insertAll_nodup _ _ _ _ (hnd.of_append_left),
      dget_append, dget_append, dget_append, dget_append]
  have keysEq : ∀ (p : String) (m : Dict V),
      (m.map (fun kv => (p ++ kv.1, kv.2))).map Prod.fst
        = m.map (fun kv => p ++ kv.1) := by
    intro p m
    simp [List.map_map]
  have memA : ∀ (p : String) (m : Dict V) (v : V),
      dget (m.map (fun kv => (p ++ kv.1, kv.2))) q = some v →
        q ∈ m.map (fun kv => p ++ kv.1) := by
    intro p m v hv
    have := mem_of_dget_some _ _ _ hv
    rwa [keysEq] at this
  have noneOf : ∀ (p : String) (m : Dict V),
      q ∉ m.map (fun kv => p ++ kv.1) →
        dget (m.map (fun kv => (p ++ kv.1, kv.2))) q = none := by
    intro p m hq
    apply dget_eq_none_of_not_mem
    rwa [keysEq]
  rcases hsc : dget (sc.map (fun kv => ("sched_" ++ kv.1, kv.2))) q with _ | v
  · rcases hsh : dget (sh.map (fun kv => ("sched_" ++ kv.1, kv.2))) q with _ | v
    · rcases hoh : dget (oh.map (fun kv => ("optim_" ++ kv.1, kv.2))) q with _ | v
      · rcases hm2 : dget (m2h.map (fun kv => ("model_2_" ++ kv.1, kv.2))) q with _ | v
        · simp only [hsc, hsh, hoh, hm2]
          cases hmh : dget (mh.map (fun kv => ("" ++ kv.1, kv.2))) q <;>
            simp [hmh, dget]
        · have hmem := memA _ _ _ hm2
          have hnotA : q ∉ mh.map (fun kv => "" ++ kv.1) :=
            fun ha => d1 ha (List.mem_append_left _ hmem)
          have hmh0 : dget mh q = none := by
            apply dget_eq_none_of_not_mem
            intro hqm
            exact hnotA (by simpa using hqm)
          simp [hsc, hsh, hoh, hm2, hmh0, noneOf _ _ hnotA]
      · have hmem := memA _ _ _ hoh
        have hnotA : q ∉ mh.map (fun kv => "" ++ kv.1) :=
          fun ha => d1 ha (List.mem_append_right _ (List.mem_append_left _ hmem))
        have hnotB : q ∉ m2h.map (fun kv => "model_2_" ++ kv.1) :=
          fun hb => d2 hb (List.mem_append_left _ hmem)
        have hmh0 : dget mh q = none := by
          apply dget_eq_none_of_not_mem
          intro hqm
          exact hnotA (by simpa using hqm)
        simp [hsc, hsh, hoh, hmh0, noneOf _ _ hnotA, noneOf _ _ hnotB]
    · have hmem := memA _ _ _ hsh
      have hnotA : q ∉ mh.map (fun kv => "" ++ kv.1) :=
        fun ha => d1 ha (List.mem_append_right _ (List.mem_append_right _
          (List.mem_append_left _ hmem)))
      have hnotB : q ∉ m2h.map (fun kv => "model_2_" ++ kv.1) :=
        fun hb => d2 hb (List.mem_append_right _ (List.mem_append_left _ hmem))
      have hnotC : q ∉ oh.map (fun kv => "optim_" ++ kv.1) :=
        fun hc => d3 hc (List.mem_append_left _ hmem)
      have hmh0 : dget mh q = none := by
        apply dget_eq_none_of_not_mem
        intro hqm
        exact hnotA (by simpa using hqm)
      simp [hsc, hsh, hmh0, noneOf _ _ hnotA, noneOf _ _ hnotB, noneOf _ _ hnotC]
  · have hmem := memA _ _ _ hsc
    have hnotA : q ∉ mh.map (fun kv => "" ++ kv.1) :=
      fun ha => d1 ha (List.mem_append_right _ (List.mem_append_right _
        (List.mem_append_right _ hmem)))
    have hnotB : q ∉ m2h.map (fun kv => "model_2_" ++ kv.1) :=
      fun hb => d2 hb (List.mem_append_right _ (List.mem_append_right _ hmem))
    have hnotC : q ∉ oh.map (fun kv => "optim_" ++ kv.1) :=
      fun hc => d3 hc (List.mem_append_right _ hmem)
    have hnotD : q ∉ sh.map (fun kv => "sched_" ++ kv.1) :=
      fun hd2 => d4 hd2 hmem
    have hmh0 : dget mh q = none := by
      apply dget_eq_none_of_not_mem
      intro hqm
      exact hnotA (by simpa using hqm)
    simp [hsc, hmh0, noneOf _ _ hnotA, noneOf _ _ hnotB, noneOf _ _ hnotC,
          noneOf _ _ hnotD]
